import Mathlib

/-!
Verification of the TCP engine core (`net/tcpengine.go`) of the kiss
socket-server library: registration rules for numeric command handlers and
string-named RPC method handlers, message dispatch (`OnMessage`), the RPC
sub-dispatcher (`onRpcMethod`), the frame reader (`RecvMsg`) and the frame
writer (`Send`).

The embedding is shallow.  Go maps become association lists with Go `m[k] = v`
overwrite semantics; a Go `panic` / `log.Panic` in a registration function
becomes an `Except` error (the panic aborts before any map write, so the
error carries no new engine state); the side effects of dispatch (sending a
reply, invoking a handler, WaitGroup Add/Done, recovering a panic, spawning a
goroutine, debug logging) become an explicit event trace; external collaborator
results (socket deadlines, reads, writes, the cipher) are explicit parameters.
Handlers are identified by numeric ids; whether a given handler invocation
panics is supplied as a function parameter, since handler bodies are user code.
-/

namespace Kiss

/-- Go byte slices are modelled as lists of naturals (each entry a byte value). -/
abbrev Bytes := List Nat

/-- Modelled from the spec: the concrete wire header/codec byte layout is owned
by the codec collaborator (`message.go` is not part of the dispatch core).  The
spec fixes only that the header is fixed-length and encodes body length,
command code and an RPC sequence number; we model a 16-byte header with body
length in bytes 0-3 (little endian), command code in bytes 4-7 and the RPC
sequence number in bytes 8-15. -/
def DEFAULT_MESSAGE_HEAD_LEN : Nat := 16

/-- Little-endian value of a byte list. -/
def leNat (bs : Bytes) : Nat :=
  bs.foldr (fun b acc => b + 256 * acc) 0

/-- `w` little-endian bytes of `n`. -/
def leBytes : Nat → Nat → Bytes
  | 0, _ => []
  | w + 1, n => n % 256 :: leBytes w (n / 256)

/-- Modelled from the spec: reserved command codes and the user ceiling live in
the protocol constants file, which is not part of the dispatch core.  The spec
describes four distinct sentinel codes (keepalive-ping, keepalive-ack with the
set-real-ip code alongside, RPC-dispatch, RPC-error) plus a configured user
maximum ceiling below them. -/
def CmdUserMax : Nat := 2 ^ 24 - 1

/-- Modelled from the spec: the reserved keepalive-ping command code. -/
def CmdPing : Nat := 2 ^ 24

/-- Modelled from the spec: the reserved keepalive-ack command code. -/
def CmdPing2 : Nat := 2 ^ 24 + 1

/-- Modelled from the spec: the reserved set-real-ip command code. -/
def CmdSetReaIp : Nat := 2 ^ 24 + 2

/-- Modelled from the spec: the reserved RPC-dispatch command code. -/
def CmdRpcMethod : Nat := 2 ^ 24 + 3

/-- Modelled from the spec: the reserved RPC-error command code. -/
def CmdRpcError : Nat := 2 ^ 24 + 4

/-- A wire message: the raw bytes, header followed by body
(`Message.data` in `tcpengine.go`). -/
structure Message where
  data : Bytes
deriving DecidableEq, Repr

/-- Modelled from the spec: body length field of the header. -/
def Message.BodyLen (m : Message) : Nat :=
  leNat (m.data.take 4)

/-- Modelled from the spec: command code field of the header. -/
def Message.Cmd (m : Message) : Nat :=
  leNat ((m.data.drop 4).take 4)

/-- Modelled from the spec: RPC sequence number field of the header. -/
def Message.RpcSeq (m : Message) : Nat :=
  leNat ((m.data.drop 8).take 8)

/-- Modelled from the spec: the body is everything after the fixed header. -/
def Message.Body (m : Message) : Bytes :=
  m.data.drop DEFAULT_MESSAGE_HEAD_LEN

/-- Modelled from the spec: build a message from a command code and a body. -/
def NewMessage (cmd : Nat) (body : Bytes) : Message :=
  ⟨leBytes 4 body.length ++ leBytes 4 cmd ++ leBytes 8 0 ++ body⟩

/-- Modelled from the spec: build an RPC message carrying a command code, the
echoed RPC sequence number and a body. -/
def NewRpcMessage (cmd : Nat) (rpcSeq : Nat) (body : Bytes) : Message :=
  ⟨leBytes 4 body.length ++ leBytes 4 cmd ++ leBytes 8 rpcSeq ++ body⟩

/-- Modelled from the spec: the lightweight ping-acknowledged reply sent on a
keepalive-ping (`ping2Msg` in the source). -/
def ping2Msg : Message := NewMessage CmdPing2 []

/-- UTF-8 bytes of a string (Go strings are byte sequences). -/
def strBytes (s : String) : Bytes :=
  s.toUTF8.toList.map (fun b => b.toNat)

/-- Association-list lookup (Go `v, ok := m[k]`). -/
def lookupKey {κ α : Type} [DecidableEq κ] (k : κ) : List (κ × α) → Option α
  | [] => none
  | (k', v) :: rest => if k' = k then some v else lookupKey k rest

/-- Association-list insert with Go `m[k] = v` overwrite semantics. -/
def mapInsert {κ α : Type} [DecidableEq κ] (k : κ) (v : α) :
    List (κ × α) → List (κ × α)
  | [] => [(k, v)]
  | (k', v') :: rest =>
      if k' = k then (k, v) :: rest else (k', v') :: mapInsert k v rest

/-- A value stored in `engine.handlers`: either a plain handler registered by
`Handle`, a wrapper around an RPC-context handler installed by `HandleRpcCmd`
(sync or async), or the engine's own `onRpcMethod` installed by
`initRpcHandler` under `CmdRpcMethod`.  User handlers are identified by ids. -/
inductive CmdHandler where
  | plain (id : Nat)
  | rpcCmd (id : Nat) (isAsync : Bool)
  | rpcDispatch
deriving DecidableEq, Repr

/-- A value stored in `engine.rpcMethodHandlers`: the handler id, wrapped in a
`util.Go` spawn when registered asynchronous. -/
inductive RpcMethodHandler where
  | sync (id : Nat)
  | asyncH (id : Nat)
deriving DecidableEq, Repr

/-- The per-call RPC context (`RpcContext`): resolved method name (as its
bytes; Go strings compare byte-wise), the connection (identified by id) and
the (possibly trimmed) message. -/
structure RpcContext where
  method : Bytes
  client : Nat
  message : Message
deriving DecidableEq, Repr

/-- The engine state the claims depend on: the running flag, the command
mapping, the lazily created RPC method mapping (`none` = Go `nil` map), and
the pluggable message / send / receive overrides (identified by id when
installed). -/
structure Engine where
  running : Bool
  handlers : List (Nat × CmdHandler)
  rpcMethodHandlers : Option (List (Bytes × RpcMethodHandler))
  onMsgHandler : Option Nat
  sendHandler : Option Nat
  recvHandler : Option Nat
deriving DecidableEq, Repr

/-- `NewTcpEngine`: running, empty command mapping, nil RPC mapping, no
overrides (socket tuning fields are external collaborators, not modelled). -/
def NewTcpEngine : Engine :=
  { running := true
    handlers := []
    rpcMethodHandlers := none
    onMsgHandler := none
    sendHandler := none
    recvHandler := none }

/-- The fatal configuration faults raised (as Go panics) by the registration
functions. -/
inductive RegError where
  | reservedCmdPing
  | reservedCmdSetRealip
  | reservedCmdRpcMethod
  | reservedCmdRpcError
  | reservedCmdInternal
  | duplicateCmd (cmd : Nat)
  | duplicateMethod (method : Bytes)
deriving DecidableEq, Repr

/-- `TcpEngin.Handle`: register a plain handler for a command code.  A Go
panic is an `.error`; the panic fires before the map write, so on error the
engine is unchanged. -/
def Handle (e : Engine) (cmd : Nat) (handler : Nat) : Except RegError Engine :=
  if cmd = CmdPing then .error .reservedCmdPing
  else if cmd = CmdSetReaIp then .error .reservedCmdSetRealip
  else if cmd = CmdRpcMethod then .error .reservedCmdRpcMethod
  else if cmd = CmdRpcError then .error .reservedCmdRpcError
  else if cmd > CmdUserMax then .error .reservedCmdInternal
  else if (lookupKey cmd e.handlers).isSome then .error (.duplicateCmd cmd)
  else .ok { e with handlers := mapInsert cmd (.plain handler) e.handlers }

/-- `TcpEngin.HandleRpcCmd`: register an RPC-context handler under a numeric
command code, wrapped sync or async. -/
def HandleRpcCmd (e : Engine) (cmd : Nat) (handler : Nat) (isAsync : Bool) :
    Except RegError Engine :=
  if cmd = CmdPing then .error .reservedCmdPing
  else if cmd = CmdSetReaIp then .error .reservedCmdSetRealip
  else if cmd = CmdRpcMethod then .error .reservedCmdRpcMethod
  else if cmd = CmdRpcError then .error .reservedCmdRpcError
  else if cmd > CmdUserMax then .error .reservedCmdInternal
  else if (lookupKey cmd e.handlers).isSome then .error (.duplicateCmd cmd)
  else .ok { e with handlers := mapInsert cmd (.rpcCmd handler isAsync) e.handlers }

/-- `TcpEngin.initRpcHandler`: on first use, create the RPC method map and
bind `onRpcMethod` under the reserved `CmdRpcMethod` code. -/
def initRpcHandler (e : Engine) : Engine :=
  match e.rpcMethodHandlers with
  | none =>
      { e with
        rpcMethodHandlers := some []
        handlers := mapInsert CmdRpcMethod .rpcDispatch e.handlers }
  | some _ => e

/-- `TcpEngin.HandleRpcMethod`: register a handler for an RPC method name
(the variadic `args` reduced to its parsed async flag). -/
def HandleRpcMethod (e : Engine) (method : Bytes) (handler : Nat)
    (isAsync : Bool) : Except RegError Engine :=
  let e' := initRpcHandler e
  let m := e'.rpcMethodHandlers.getD []
  if (lookupKey method m).isSome then .error (.duplicateMethod method)
  else
    .ok { e' with
          rpcMethodHandlers :=
            some (mapInsert method
              (if isAsync then .asyncH handler else .sync handler) m) }

/-- Observable effects of a dispatch call: a reply sent to a connection,
WaitGroup Add/Done, a recovered handler panic, invocation of a plain handler /
an RPC-command handler / an RPC method handler, a `util.Go` spawn of an
RPC-command or RPC-method handler, invocation of the full dispatch override,
and a debug log line. -/
inductive Event where
  | sendMsg (client : Nat) (m : Message)
  | waitAdd (n : Nat)
  | waitDone
  | panicCaught
  | callHandler (id : Nat) (client : Nat) (m : Message)
  | callRpcCmdHandler (id : Nat) (ctx : RpcContext)
  | goSpawnRpcCmd (id : Nat) (ctx : RpcContext)
  | callRpcMethodHandler (id : Nat) (ctx : RpcContext)
  | goSpawnRpcMethod (id : Nat) (ctx : RpcContext)
  | callOverride (id : Nat) (client : Nat) (m : Message)
  | logDebug (s : String)
deriving DecidableEq, Repr

/-- The method-name slice `data[(len(data)-1-methodLen):(len(data)-1)]`
extracted by `onRpcMethod`. -/
def rpcMethodOf (data : Bytes) (methodLen : Nat) : Bytes :=
  (data.take (data.length - 1)).drop (data.length - 1 - methodLen)

/-- `TcpEngin.onRpcMethod`: decode the trailing length-prefixed method name
from the message body, dispatch to the RPC method table, or reply with an
error frame on `CmdRpcError`.  `runRpc id ctx` tells whether that handler
invocation panics (handler bodies are user code).  Returns the emitted events
and whether a panic escaped to the caller. -/
def onRpcMethod (e : Engine) (runRpc : Nat → RpcContext → Bool)
    (client : Nat) (msg : Message) : List Event × Bool :=
  let data := msg.Body
  if data.length < 2 then
    ([.sendMsg client
        (NewRpcMessage CmdRpcError msg.RpcSeq (strBytes ("invalid rpc payload")))],
     false)
  else
    let methodLen := data.getLastD 0
    if methodLen = 0 ∨ 128 ≤ methodLen ∨ data.length - 1 < methodLen then
      ([.sendMsg client
          (NewRpcMessage CmdRpcError msg.RpcSeq
            (strBytes ("invalid rpc method length " ++ toString methodLen ++
              ", should be (1-127)")))],
       false)
    else
      let method := rpcMethodOf data methodLen
      match lookupKey method (e.rpcMethodHandlers.getD []) with
      | none =>
          ([.sendMsg client
              (NewRpcMessage CmdRpcError msg.RpcSeq
                (strBytes ("invalid rpc method ") ++ method))],
           false)
      | some mh =>
          let trimmed : Message := ⟨msg.data.take (msg.data.length - 1 - methodLen)⟩
          match mh with
          | .sync id =>
              ([.callRpcMethodHandler id ⟨method, client, trimmed⟩],
               runRpc id ⟨method, client, trimmed⟩)
          | .asyncH id =>
              ([.goSpawnRpcMethod id ⟨method, client, trimmed⟩], false)

/-- Invocation of one stored `engine.handlers` entry (the closure called at
the dispatch site).  `runPlain id client msg` / `runRpc id ctx` tell whether
that user handler invocation panics. -/
def runCmdHandler (e : Engine) (runPlain : Nat → Nat → Message → Bool)
    (runRpc : Nat → RpcContext → Bool) (client : Nat) (msg : Message) :
    CmdHandler → List Event × Bool
  | .plain id => ([.callHandler id client msg], runPlain id client msg)
  | .rpcCmd id true => ([.goSpawnRpcCmd id ⟨[], client, msg⟩], false)
  | .rpcCmd id false =>
      ([.callRpcCmdHandler id ⟨[], client, msg⟩], runRpc id ⟨[], client, msg⟩)
  | .rpcDispatch => onRpcMethod e runRpc client msg

/-- `TcpEngin.OnMessage`: the command dispatcher.  Gate on the running flag;
defer to the full dispatch override when installed; answer keepalive-ping with
`ping2Msg`; discard keepalive-ack; otherwise look the command up and run the
stored handler wrapped in WaitGroup `Add(1)` / deferred `HandlePanic` /
deferred `Done` (deferred calls run in reverse order, so a panic is recovered
before `Done` runs). -/
def OnMessage (e : Engine) (runPlain : Nat → Nat → Message → Bool)
    (runRpc : Nat → RpcContext → Bool) (client : Nat) (msg : Message) :
    List Event :=
  if e.running = false then []
  else
    match e.onMsgHandler with
    | some ov => [.callOverride ov client msg]
    | none =>
        let cmd := msg.Cmd
        if cmd = CmdPing then [.sendMsg client ping2Msg]
        else if cmd = CmdPing2 then []
        else
          match lookupKey cmd e.handlers with
          | some h =>
              let r := runCmdHandler e runPlain runRpc client msg h
              .waitAdd 1 :: r.1 ++
                (if r.2 then [.panicCaught] else []) ++ [.waitDone]
          | none => [.logDebug ("no handler for cmd " ++ toString cmd)]

/-- A Go `error` value as observed by the frame reader/writer: either an
external collaborator's error (deadline, read, write, decrypt — carried as
text) or the engine's own short-write sentinel `ErrTcpClientWriteHalf`. -/
inductive GoErr where
  | errMsg (s : String)
  | errTcpClientWriteHalf
deriving DecidableEq, Repr

/-- Outcome of `TcpEngin.Send`: whether the connection was stopped and the
returned error (`none` = Go `nil`). -/
structure SendOutcome where
  stopped : Bool
  result : Option GoErr
deriving DecidableEq, Repr

/-- `TcpEngin.Send`: the frame writer.  External collaborator results are
parameters: `overrideResult` is what the pluggable send override returns when
installed, `setDeadlineRes` the `SetWriteDeadline` error, `writeRes` either
the `Write` error or the byte count written.  Any failure stops the
connection and returns the error; a short write returns
`ErrTcpClientWriteHalf`. -/
def Send (e : Engine) (overrideResult : Option GoErr)
    (setDeadlineRes : Option GoErr) (writeRes : Sum GoErr Nat)
    (dataLen : Nat) : SendOutcome :=
  match e.sendHandler with
  | some _ => ⟨false, overrideResult⟩
  | none =>
      match setDeadlineRes with
      | some err => ⟨true, some err⟩
      | none =>
          match writeRes with
          | .inl err => ⟨true, some err⟩
          | .inr nwrite =>
              if nwrite ≠ dataLen then ⟨true, some .errTcpClientWriteHalf⟩
              else ⟨false, none⟩

/-- Outcome of `TcpEngin.RecvMsg`: the sizes of the body buffers allocated
for the declared body length (`make([]byte, dataLen)`), and the produced
message (`none` = Go `nil`, a handled per-connection failure). -/
structure RecvOutcome where
  bodyAllocs : List Nat
  result : Option Message
deriving DecidableEq, Repr

/-- `TcpEngin.RecvMsg`: the frame reader.  External collaborator results are
parameters: `overrideResult` is what the pluggable receive override returns
when installed; `setDeadline1Res` / `setDeadline2Res` the two
`SetReadDeadline` errors; `headRead` either the header `io.ReadFull` error or
the header bytes read; `bodyRead` likewise for the body; `decrypt` the cipher
collaborator, consuming the raw header+body buffer and yielding the plaintext
or a fault (modelled from the spec — the concrete cipher is external).  The
body length declared by the header is rejected before any body allocation
when header length + body length exceeds `sockMaxPackLen`. -/
def RecvMsg (e : Engine) (sockMaxPackLen : Nat)
    (overrideResult : Option Message)
    (setDeadline1Res : Option GoErr) (headRead : Sum GoErr Bytes)
    (setDeadline2Res : Option GoErr) (bodyRead : Sum GoErr Bytes)
    (decrypt : Bytes → Sum GoErr Bytes) : RecvOutcome :=
  match e.recvHandler with
  | some _ => ⟨[], overrideResult⟩
  | none =>
      match setDeadline1Res with
      | some _ => ⟨[], none⟩
      | none =>
          match headRead with
          | .inl _ => ⟨[], none⟩
          | .inr hs =>
              if hs.length < DEFAULT_MESSAGE_HEAD_LEN then ⟨[], none⟩
              else
                let dataLen := Message.BodyLen ⟨hs⟩
                if 0 < dataLen then
                  if sockMaxPackLen < dataLen + DEFAULT_MESSAGE_HEAD_LEN then
                    ⟨[], none⟩
                  else
                    match setDeadline2Res with
                    | some _ => ⟨[], none⟩
                    | none =>
                        match bodyRead with
                        | .inl _ => ⟨[dataLen], none⟩
                        | .inr body =>
                            match decrypt (hs ++ body) with
                            | .inl _ => ⟨[dataLen], none⟩
                            | .inr plain => ⟨[dataLen], some ⟨plain⟩⟩
                else
                  match decrypt hs with
                  | .inl _ => ⟨[], none⟩
                  | .inr plain => ⟨[], some ⟨plain⟩⟩

/-! ### Helper lemmas -/

theorem lookupKey_mapInsert_self {κ α : Type} [DecidableEq κ] (k : κ) (v : α)
    (l : List (κ × α)) : lookupKey k (mapInsert k v l) = some v := by
  induction l with
  | nil => simp [mapInsert, lookupKey]
  | cons p rest ih =>
      obtain ⟨k', v'⟩ := p
      by_cases h : k' = k <;> simp [mapInsert, lookupKey, h, ih]

/-! ### Claims -/

/-- C1 counterexample: the claim says every code at or above the ceiling
`CmdUserMax` is rejected, but the source checks `cmd > CmdUserMax`
(strictly above), so registering exactly at the ceiling succeeds and
installs a handler — for both `Handle` and `HandleRpcCmd`. -/
theorem handle_at_ceiling_succeeds :
    Handle NewTcpEngine CmdUserMax 7 =
      .ok { NewTcpEngine with handlers := [(CmdUserMax, .plain 7)] } ∧
    HandleRpcCmd NewTcpEngine CmdUserMax 8 false =
      .ok { NewTcpEngine with handlers := [(CmdUserMax, .rpcCmd 8 false)] } ∧
    lookupKey CmdUserMax [(CmdUserMax, CmdHandler.plain 7)] = some (.plain 7) := by
  refine ⟨by rfl, by rfl, by rfl⟩

/-- C1 (amended): for every code equal to one of the four reserved codes or
STRICTLY ABOVE the ceiling `CmdUserMax`, both `Handle` and `HandleRpcCmd`
raise a fatal configuration fault and install nothing (the fault aborts
before any map write, so the returned value carries no updated engine). -/
theorem register_reserved_or_above_ceiling_fails (e : Engine) (c h1 h2 : Nat)
    (a : Bool)
    (hc : c = CmdPing ∨ c = CmdSetReaIp ∨ c = CmdRpcMethod ∨ c = CmdRpcError ∨
      CmdUserMax < c) :
    (∃ err, Handle e c h1 = .error err) ∧
    (∃ err, HandleRpcCmd e c h2 a = .error err) := by
  constructor
  · unfold Handle
    split_ifs with g1 g2 g3 g4 g5 g6
    · exact ⟨_, rfl⟩
    · exact ⟨_, rfl⟩
    · exact ⟨_, rfl⟩
    · exact ⟨_, rfl⟩
    · exact ⟨_, rfl⟩
    · exact ⟨_, rfl⟩
    · exact absurd hc (by simp [g1, g2, g3, g4, g5])
  · unfold HandleRpcCmd
    split_ifs with g1 g2 g3 g4 g5 g6
    · exact ⟨_, rfl⟩
    · exact ⟨_, rfl⟩
    · exact ⟨_, rfl⟩
    · exact ⟨_, rfl⟩
    · exact ⟨_, rfl⟩
    · exact ⟨_, rfl⟩
    · exact absurd hc (by simp [g1, g2, g3, g4, g5])

/-- C1 witness: at the reserved ping code the fault is raised. -/
theorem register_reserved_or_above_ceiling_fails_witness :
    (∃ err, Handle NewTcpEngine CmdPing 7 = .error err) ∧
    (∃ err, HandleRpcCmd NewTcpEngine CmdPing 8 true = .error err) :=
  register_reserved_or_above_ceiling_fails NewTcpEngine CmdPing 7 8 true
    (Or.inl rfl)

/-- C4: when the running flag is false, `OnMessage` emits no event at all —
no handler call, no dispatch-override call, no reply — for every engine,
connection and message. -/
theorem onMessage_not_running_drops (e : Engine)
    (runPlain : Nat → Nat → Message → Bool) (runRpc : Nat → RpcContext → Bool)
    (client : Nat) (msg : Message) (hrun : e.running = false) :
    OnMessage e runPlain runRpc client msg = [] := by
  simp [OnMessage, hrun]

/-- C4 witness: a stopped engine drops even a keepalive-ping message. -/
theorem onMessage_not_running_drops_witness :
    OnMessage { NewTcpEngine with running := false }
      (fun _ _ _ => false) (fun _ _ => false) 1 (NewMessage CmdPing []) = [] :=
  onMessage_not_running_drops { NewTcpEngine with running := false }
    (fun _ _ _ => false) (fun _ _ => false) 1 (NewMessage CmdPing []) rfl

/-- C8: with no send override installed, a deadline-set failure, a write
error, or a write of a byte count different from the buffer length each stop
the connection and return a non-nil error, with no retry; a complete write
returns nil and leaves the connection running. -/
theorem send_failure_stops_success_clean (e : Engine) (ovr : Option GoErr)
    (sd : Option GoErr) (wr : Sum GoErr Nat) (dataLen : Nat)
    (hov : e.sendHandler = none) :
    (∀ err, sd = some err → Send e ovr sd wr dataLen = ⟨true, some err⟩) ∧
    (∀ err, sd = none → wr = .inl err →
      Send e ovr sd wr dataLen = ⟨true, some err⟩) ∧
    (∀ n, sd = none → wr = .inr n → n ≠ dataLen →
      Send e ovr sd wr dataLen = ⟨true, some .errTcpClientWriteHalf⟩) ∧
    (sd = none → wr = .inr dataLen → Send e ovr sd wr dataLen = ⟨false, none⟩) := by
  refine ⟨?_, ?_, ?_, ?_⟩
  · rintro err rfl
    simp [Send, hov]
  · rintro err rfl rfl
    simp [Send, hov]
  · rintro n rfl rfl hne
    simp [Send, hov, hne]
  · rintro rfl rfl
    simp [Send, hov]

/-- C8 witness: a three-of-five-bytes short write stops the connection and
returns the short-write sentinel; a full write returns nil. -/
theorem send_failure_stops_success_clean_witness :
    Send NewTcpEngine none none (.inr 3) 5 =
      ⟨true, some .errTcpClientWriteHalf⟩ ∧
    Send NewTcpEngine none none (.inr 5) 5 = ⟨false, none⟩ := by
  constructor
  · exact (send_failure_stops_success_clean NewTcpEngine none none (.inr 3) 5
      rfl).2.2.1 3 rfl rfl (by decide)
  · exact (send_failure_stops_success_clean NewTcpEngine none none (.inr 5) 5
      rfl).2.2.2 rfl rfl

/-- C2: with no receive override, when the header declares a body length
`d > 0` with `d + DEFAULT_MESSAGE_HEAD_LEN > sockMaxPackLen`, `RecvMsg`
performs no body allocation and yields no message, whatever the later
collaborator results would have been. -/
theorem recvMsg_oversized_body_rejected (e : Engine) (maxLen : Nat)
    (ov : Option Message) (sd2 : Option GoErr) (hs : Bytes)
    (br : Sum GoErr Bytes) (dec : Bytes → Sum GoErr Bytes)
    (hrecv : e.recvHandler = none)
    (hlen : DEFAULT_MESSAGE_HEAD_LEN ≤ hs.length)
    (hpos : 0 < Message.BodyLen ⟨hs⟩)
    (hover : maxLen < Message.BodyLen ⟨hs⟩ + DEFAULT_MESSAGE_HEAD_LEN) :
    RecvMsg e maxLen ov none (.inr hs) sd2 br dec = ⟨[], none⟩ := by
  simp [RecvMsg, hrecv, Nat.not_lt.mpr hlen, hpos, hover]

/-- C2 witness: a header declaring a 100-byte body against a 50-byte maximum
packet length is rejected with no body allocation. -/
theorem recvMsg_oversized_body_rejected_witness :
    DEFAULT_MESSAGE_HEAD_LEN ≤ (leBytes 4 100 ++ leBytes 4 5 ++ leBytes 8 0).length ∧
    0 < Message.BodyLen ⟨leBytes 4 100 ++ leBytes 4 5 ++ leBytes 8 0⟩ ∧
    RecvMsg NewTcpEngine 50 none none
      (.inr (leBytes 4 100 ++ leBytes 4 5 ++ leBytes 8 0)) none (.inr [])
      (fun bs => .inr bs) = ⟨[], none⟩ :=
  ⟨by decide, by decide,
    recvMsg_oversized_body_rejected NewTcpEngine 50 none none
      (leBytes 4 100 ++ leBytes 4 5 ++ leBytes 8 0) (.inr [])
      (fun bs => .inr bs) rfl (by decide) (by decide) (by decide)⟩

/-- C3: after a successful first registration, a second registration of the
same command code (via `Handle` or `HandleRpcCmd`) and a second registration
of the same RPC method name (via `HandleRpcMethod`) each raise the
duplicate-registration fault, and the entry installed by the first
registration is still the one in the mapping. -/
theorem duplicate_registration_rejected_first_kept (e e1 e2 : Engine)
    (c h1 h2 h3 g1 g2 : Nat) (a b1 b2 : Bool) (m : Bytes)
    (hreg : Handle e c h1 = .ok e1)
    (hm : HandleRpcMethod e m g1 b1 = .ok e2) :
    Handle e1 c h2 = .error (.duplicateCmd c) ∧
    HandleRpcCmd e1 c h3 a = .error (.duplicateCmd c) ∧
    lookupKey c e1.handlers = some (.plain h1) ∧
    HandleRpcMethod e2 m g2 b2 = .error (.duplicateMethod m) ∧
    lookupKey m (e2.rpcMethodHandlers.getD []) =
      some (if b1 then .asyncH g1 else .sync g1) := by
  unfold Handle at hreg
  split_ifs at hreg with g1' g2' g3' g4' g5' g6'
  rw [Except.ok.injEq] at hreg
  subst hreg
  simp only [HandleRpcMethod] at hm
  split_ifs at hm with gdup gb
  all_goals rw [Except.ok.injEq] at hm
  all_goals subst hm
  all_goals refine ⟨?_, ?_, ?_, ?_, ?_⟩
  · unfold Handle
    simp [g1', g2', g3', g4', g5', lookupKey_mapInsert_self]
  · unfold HandleRpcCmd
    simp [g1', g2', g3', g4', g5', lookupKey_mapInsert_self]
  · exact lookupKey_mapInsert_self c (.plain h1) e.handlers
  · unfold HandleRpcMethod
    simp [initRpcHandler, lookupKey_mapInsert_self]
  · simp [gb, lookupKey_mapInsert_self]
  · unfold Handle
    simp [g1', g2', g3', g4', g5', lookupKey_mapInsert_self]
  · unfold HandleRpcCmd
    simp [g1', g2', g3', g4', g5', lookupKey_mapInsert_self]
  · exact lookupKey_mapInsert_self c (.plain h1) e.handlers
  · unfold HandleRpcMethod
    simp [initRpcHandler, lookupKey_mapInsert_self]
  · simp [gb, lookupKey_mapInsert_self]

/-- C3 witness: register code 5 and method "echo" on a fresh engine, then
re-register each; the second calls fault and the first entries survive. -/
theorem duplicate_registration_rejected_first_kept_witness :
    ∃ e1 e2 : Engine,
      Handle NewTcpEngine 5 7 = .ok e1 ∧
      HandleRpcMethod NewTcpEngine (strBytes ("echo")) 9 false = .ok e2 ∧
      Handle e1 5 8 = .error (.duplicateCmd 5) ∧
      HandleRpcCmd e1 5 8 true = .error (.duplicateCmd 5) ∧
      lookupKey 5 e1.handlers = some (.plain 7) ∧
      HandleRpcMethod e2 (strBytes ("echo")) 10 true =
        .error (.duplicateMethod (strBytes ("echo"))) ∧
      lookupKey (strBytes ("echo")) (e2.rpcMethodHandlers.getD []) =
        some (.sync 9) := by
  refine ⟨{ NewTcpEngine with handlers := [(5, .plain 7)] },
    { NewTcpEngine with
        rpcMethodHandlers := some [(strBytes ("echo"), .sync 9)]
        handlers := [(CmdRpcMethod, .rpcDispatch)] }, by rfl, by rfl, ?_⟩
  have h := duplicate_registration_rejected_first_kept NewTcpEngine
    { NewTcpEngine with handlers := [(5, .plain 7)] }
    { NewTcpEngine with
        rpcMethodHandlers := some [(strBytes ("echo"), .sync 9)]
        handlers := [(CmdRpcMethod, .rpcDispatch)] }
    5 7 8 8 9 10 true false true (strBytes ("echo")) (by rfl) (by rfl)
  exact ⟨h.1, h.2.1, h.2.2.1, h.2.2.2.1, h.2.2.2.2⟩

/-- C10: duplicate rejection spans the two numeric registration kinds — after
a successful `Handle` on code `c`, a `HandleRpcCmd` on `c` faults, and after a
successful `HandleRpcCmd` on `c`, a `Handle` on `c` faults; in each case the
entry installed by the first call is still in the mapping. -/
theorem cross_registration_duplicate_rejected (e ea eb : Engine)
    (c h1 h2 h3 h4 : Nat) (a1 a2 : Bool)
    (hA : Handle e c h1 = .ok ea)
    (hB : HandleRpcCmd e c h2 a1 = .ok eb) :
    HandleRpcCmd ea c h3 a2 = .error (.duplicateCmd c) ∧
    Handle eb c h4 = .error (.duplicateCmd c) ∧
    lookupKey c ea.handlers = some (.plain h1) ∧
    lookupKey c eb.handlers = some (.rpcCmd h2 a1) := by
  unfold Handle at hA
  split_ifs at hA with g1 g2 g3 g4 g5 g6
  rw [Except.ok.injEq] at hA
  subst hA
  unfold HandleRpcCmd at hB
  split_ifs at hB
  rw [Except.ok.injEq] at hB
  subst hB
  refine ⟨?_, ?_, ?_, ?_⟩
  · unfold HandleRpcCmd
    simp [g1, g2, g3, g4, g5, lookupKey_mapInsert_self]
  · unfold Handle
    simp [g1, g2, g3, g4, g5, lookupKey_mapInsert_self]
  · exact lookupKey_mapInsert_self c (.plain h1) e.handlers
  · exact lookupKey_mapInsert_self c (.rpcCmd h2 a1) e.handlers

/-- C10 witness: on a fresh engine, `Handle 5` then `HandleRpcCmd 5` faults,
and `HandleRpcCmd 5` then `Handle 5` faults. -/
theorem cross_registration_duplicate_rejected_witness :
    HandleRpcCmd { NewTcpEngine with handlers := [(5, .plain 7)] } 5 8 true =
      .error (.duplicateCmd 5) ∧
    Handle { NewTcpEngine with handlers := [(5, .rpcCmd 9 false)] } 5 6 =
      .error (.duplicateCmd 5) := by
  have h := cross_registration_duplicate_rejected NewTcpEngine
    { NewTcpEngine with handlers := [(5, .plain 7)] }
    { NewTcpEngine with handlers := [(5, .rpcCmd 9 false)] }
    5 7 9 8 6 false true (by rfl) (by rfl)
  exact ⟨h.1, h.2.1⟩

/-- C5: for every RPC-command message whose body is malformed — shorter than
2 bytes, trailing length byte outside [1,127], fewer than `L` bytes before
the length byte, or no handler registered for the extracted method name —
`onRpcMethod` emits exactly one reply: an error frame on `CmdRpcError`
echoing the caller's RPC sequence number; no method handler is invoked and
nothing stops the connection. -/
theorem onRpcMethod_malformed_error_reply (e : Engine)
    (runRpc : Nat → RpcContext → Bool) (client : Nat) (msg : Message)
    (hmal : msg.Body.length < 2 ∨
      msg.Body.getLastD 0 = 0 ∨ 128 ≤ msg.Body.getLastD 0 ∨
      msg.Body.length - 1 < msg.Body.getLastD 0 ∨
      lookupKey (rpcMethodOf msg.Body (msg.Body.getLastD 0))
        (e.rpcMethodHandlers.getD []) = none) :
    ∃ txt, onRpcMethod e runRpc client msg =
      ([.sendMsg client (NewRpcMessage CmdRpcError msg.RpcSeq txt)], false) := by
  simp only [onRpcMethod]
  by_cases h1 : msg.Body.length < 2
  · rw [if_pos h1]
    exact ⟨_, rfl⟩
  · rw [if_neg h1]
    by_cases h2 : msg.Body.getLastD 0 = 0 ∨ 128 ≤ msg.Body.getLastD 0 ∨
        msg.Body.length - 1 < msg.Body.getLastD 0
    · rw [if_pos h2]
      exact ⟨_, rfl⟩
    · rw [if_neg h2]
      cases hlk : lookupKey (rpcMethodOf msg.Body (msg.Body.getLastD 0))
          (e.rpcMethodHandlers.getD []) with
      | none =>
          simp only [hlk]
          exact ⟨_, rfl⟩
      | some mh =>
          exfalso
          push_neg at h2
          rcases hmal with h | h | h | h | h
          · exact h1 h
          · exact h2.1 h
          · exact absurd h (Nat.not_le.mpr h2.2.1)
          · exact absurd h (Nat.not_lt.mpr h2.2.2)
          · rw [h] at hlk
            exact Option.noConfusion hlk

/-- C5 witness: an RPC message with an empty body draws an error reply. -/
theorem onRpcMethod_malformed_error_reply_witness :
    ∃ txt, onRpcMethod NewTcpEngine (fun _ _ => false) 1
        ⟨List.replicate DEFAULT_MESSAGE_HEAD_LEN 0⟩ =
      ([.sendMsg 1
          (NewRpcMessage CmdRpcError
            (Message.RpcSeq ⟨List.replicate DEFAULT_MESSAGE_HEAD_LEN 0⟩) txt)],
        false) :=
  onRpcMethod_malformed_error_reply NewTcpEngine (fun _ _ => false) 1
    ⟨List.replicate DEFAULT_MESSAGE_HEAD_LEN 0⟩ (Or.inl (by decide))

/-- C6: for every RPC-command message whose trailing length byte
`L ∈ [1,127]` fits the body and names a registered method — registered with
either async flag — the sub-dispatcher truncates `msg.data` in place by the
trailing `L + 1` bytes and invokes exactly that method's handler with a
context carrying the extracted method name, the connection and the trimmed
message (directly when registered synchronous, as the spawned concurrent call
when registered asynchronous); the trimmed body is the original body minus
its last `L + 1` bytes, and the extracted name has exactly `L` bytes. -/
theorem onRpcMethod_success_trims_and_dispatches (e : Engine)
    (runRpc : Nat → RpcContext → Bool) (client : Nat) (msg : Message)
    (L : Nat) (mh : RpcMethodHandler)
    (hL : msg.Body.getLastD 0 = L)
    (hlen2 : 2 ≤ msg.Body.length)
    (hL1 : 1 ≤ L) (hL127 : L ≤ 127)
    (hfits : L ≤ msg.Body.length - 1)
    (hreg : lookupKey (rpcMethodOf msg.Body L) (e.rpcMethodHandlers.getD []) =
      some mh) :
    (∀ id, mh = .sync id →
      onRpcMethod e runRpc client msg =
        ([.callRpcMethodHandler id
            ⟨rpcMethodOf msg.Body L, client,
              ⟨msg.data.take (msg.data.length - (L + 1))⟩⟩],
          runRpc id
            ⟨rpcMethodOf msg.Body L, client,
              ⟨msg.data.take (msg.data.length - (L + 1))⟩⟩)) ∧
    (∀ id, mh = .asyncH id →
      onRpcMethod e runRpc client msg =
        ([.goSpawnRpcMethod id
            ⟨rpcMethodOf msg.Body L, client,
              ⟨msg.data.take (msg.data.length - (L + 1))⟩⟩],
          false)) ∧
    Message.Body ⟨msg.data.take (msg.data.length - (L + 1))⟩ =
      msg.Body.take (msg.Body.length - (L + 1)) ∧
    (rpcMethodOf msg.Body L).length = L := by
  have hsub : msg.data.length - 1 - L = msg.data.length - (L + 1) := by omega
  have hblen : msg.Body.length = msg.data.length - DEFAULT_MESSAGE_HEAD_LEN := by
    simp [Message.Body]
  refine ⟨?_, ?_, ?_, ?_⟩
  · rintro id rfl
    simp only [onRpcMethod, hL]
    rw [if_neg (by omega), if_neg (by push_neg; refine ⟨by omega, by omega, by omega⟩)]
    simp only [hreg, hsub]
  · rintro id rfl
    simp only [onRpcMethod, hL]
    rw [if_neg (by omega), if_neg (by push_neg; refine ⟨by omega, by omega, by omega⟩)]
    simp only [hreg, hsub]
  · simp only [Message.Body, List.drop_take]
    congr 1
    rw [List.length_drop]
    omega
  · have htk : (msg.Body.take (msg.Body.length - 1)).length = msg.Body.length - 1 := by
      rw [List.length_take]
      omega
    simp only [rpcMethodOf, List.length_drop, htk]
    omega

/-- C6 witness: body `[1, 2, 97, 98, 2]` (payload `[1, 2]`, method `"ab"`,
length byte 2) dispatches to the handler registered for `[97, 98]` with the
message trimmed to header plus `[1, 2]` — invoked directly when the method
was registered synchronous, spawned when registered asynchronous. -/
theorem onRpcMethod_success_trims_and_dispatches_witness :
    onRpcMethod
        { NewTcpEngine with rpcMethodHandlers := some [([97, 98], .sync 9)] }
        (fun _ _ => false) 1
        ⟨List.replicate DEFAULT_MESSAGE_HEAD_LEN 0 ++ [1, 2, 97, 98, 2]⟩ =
      ([.callRpcMethodHandler 9
          ⟨[97, 98], 1, ⟨List.replicate DEFAULT_MESSAGE_HEAD_LEN 0 ++ [1, 2]⟩⟩],
        false) ∧
    onRpcMethod
        { NewTcpEngine with rpcMethodHandlers := some [([97, 98], .asyncH 9)] }
        (fun _ _ => false) 1
        ⟨List.replicate DEFAULT_MESSAGE_HEAD_LEN 0 ++ [1, 2, 97, 98, 2]⟩ =
      ([.goSpawnRpcMethod 9
          ⟨[97, 98], 1, ⟨List.replicate DEFAULT_MESSAGE_HEAD_LEN 0 ++ [1, 2]⟩⟩],
        false) := by
  constructor
  · have h := onRpcMethod_success_trims_and_dispatches
      { NewTcpEngine with rpcMethodHandlers := some [([97, 98], .sync 9)] }
      (fun _ _ => false) 1
      ⟨List.replicate DEFAULT_MESSAGE_HEAD_LEN 0 ++ [1, 2, 97, 98, 2]⟩ 2
      (.sync 9)
      (by decide) (by decide) (by decide) (by decide) (by decide) (by decide)
    rw [h.1 9 rfl]
    rfl
  · have h := onRpcMethod_success_trims_and_dispatches
      { NewTcpEngine with rpcMethodHandlers := some [([97, 98], .asyncH 9)] }
      (fun _ _ => false) 1
      ⟨List.replicate DEFAULT_MESSAGE_HEAD_LEN 0 ++ [1, 2, 97, 98, 2]⟩ 2
      (.asyncH 9)
      (by decide) (by decide) (by decide) (by decide) (by decide) (by decide)
    rw [h.2.1 9 rfl]
    rfl

/-- C7: with the engine running and no dispatch override, a keepalive-ping
message draws exactly one `ping2Msg` reply and touches no command-table
entry (the trace is the same for every `handlers` content); a keepalive-ack
message is discarded with no event; any other command missing from the
mapping is logged and dropped with no reply. -/
theorem onMessage_keepalive_and_miss (e : Engine)
    (runPlain : Nat → Nat → Message → Bool) (runRpc : Nat → RpcContext → Bool)
    (client : Nat) (mp m2 mo : Message)
    (hrun : e.running = true) (hov : e.onMsgHandler = none)
    (hp : mp.Cmd = CmdPing) (hack : m2.Cmd = CmdPing2)
    (ho1 : mo.Cmd ≠ CmdPing) (ho2 : mo.Cmd ≠ CmdPing2)
    (homiss : lookupKey mo.Cmd e.handlers = none) :
    OnMessage e runPlain runRpc client mp = [.sendMsg client ping2Msg] ∧
    OnMessage e runPlain runRpc client m2 = [] ∧
    OnMessage e runPlain runRpc client mo =
      [.logDebug ("no handler for cmd " ++ toString mo.Cmd)] := by
  have hping : CmdPing2 ≠ CmdPing := by decide
  refine ⟨?_, ?_, ?_⟩
  · simp [OnMessage, hrun, hov, hp]
  · simp [OnMessage, hrun, hov, hack, hping]
  · simp [OnMessage, hrun, hov, ho1, ho2, homiss]

/-- C7 witness: on a fresh running engine, ping is answered once, ping-ack is
discarded, and an unregistered command is logged and dropped. -/
theorem onMessage_keepalive_and_miss_witness :
    OnMessage NewTcpEngine (fun _ _ _ => false) (fun _ _ => false) 1
        (NewMessage CmdPing []) = [.sendMsg 1 ping2Msg] ∧
    OnMessage NewTcpEngine (fun _ _ _ => false) (fun _ _ => false) 1
        (NewMessage CmdPing2 []) = [] ∧
    OnMessage NewTcpEngine (fun _ _ _ => false) (fun _ _ => false) 1
        (NewMessage 5 []) =
      [.logDebug ("no handler for cmd " ++ toString (NewMessage 5 []).Cmd)] :=
  onMessage_keepalive_and_miss NewTcpEngine (fun _ _ _ => false)
    (fun _ _ => false) 1 (NewMessage CmdPing []) (NewMessage CmdPing2 [])
    (NewMessage 5 []) rfl rfl (by decide) (by decide) (by decide) (by decide)
    rfl

/-- C9: for EVERY entry stored in the shared command mapping — a plain
handler, a `HandleRpcCmd`-installed wrapper (sync or async) or the RPC
dispatch entry — a message dispatching to it produces exactly: the WaitGroup
increment, the stored handler's own events, a recovered-panic event when (and
only when) that invocation panics, then the WaitGroup decrement.  So the
in-flight counter is incremented before the handler runs and decremented
after it completes even on a panic, the panic never escapes `OnMessage`, and
no other effect (no reply of `OnMessage`'s own, no connection close) occurs.
The second conjunct instantiates this bracketing for a plain handler, whose
only event is its invocation. -/
theorem onMessage_dispatch_counter_and_panic (e : Engine)
    (runPlain : Nat → Nat → Message → Bool) (runRpc : Nat → RpcContext → Bool)
    (client : Nat) (msg : Message) (h : CmdHandler)
    (hrun : e.running = true) (hov : e.onMsgHandler = none)
    (h1 : msg.Cmd ≠ CmdPing) (h2 : msg.Cmd ≠ CmdPing2)
    (hhit : lookupKey msg.Cmd e.handlers = some h) :
    OnMessage e runPlain runRpc client msg =
      [Event.waitAdd 1] ++ (runCmdHandler e runPlain runRpc client msg h).1 ++
        (if (runCmdHandler e runPlain runRpc client msg h).2 then
          [Event.panicCaught] else []) ++
        [Event.waitDone] ∧
    (∀ id, h = .plain id →
      OnMessage e runPlain runRpc client msg =
        [Event.waitAdd 1, .callHandler id client msg] ++
          (if runPlain id client msg then [Event.panicCaught] else []) ++
          [Event.waitDone]) := by
  constructor
  · simp [OnMessage, hrun, hov, h1, h2, hhit]
  · rintro id rfl
    simp [OnMessage, hrun, hov, h1, h2, hhit, runCmdHandler]

/-- C9 witness: a plain handler registered at code 5 that panics — the
counter is still balanced and the panic is recorded as caught; a
`HandleRpcCmd`-installed synchronous wrapper at code 6 gets the same
bracketing around its RPC-context call. -/
theorem onMessage_dispatch_counter_and_panic_witness :
    OnMessage { NewTcpEngine with handlers := [(5, .plain 3)] }
        (fun _ _ _ => true) (fun _ _ => false) 1 (NewMessage 5 []) =
      [Event.waitAdd 1, .callHandler 3 1 (NewMessage 5 []),
        Event.panicCaught, Event.waitDone] ∧
    OnMessage { NewTcpEngine with handlers := [(6, .rpcCmd 4 false)] }
        (fun _ _ _ => false) (fun _ _ => false) 1 (NewMessage 6 []) =
      [Event.waitAdd 1, .callRpcCmdHandler 4 ⟨[], 1, NewMessage 6 []⟩,
        Event.waitDone] := by
  constructor
  · have h := onMessage_dispatch_counter_and_panic
      { NewTcpEngine with handlers := [(5, .plain 3)] }
      (fun _ _ _ => true) (fun _ _ => false) 1 (NewMessage 5 []) (.plain 3)
      rfl rfl (by decide) (by decide) (by decide)
    rw [h.2 3 rfl]
    rfl
  · have h := onMessage_dispatch_counter_and_panic
      { NewTcpEngine with handlers := [(6, .rpcCmd 4 false)] }
      (fun _ _ _ => false) (fun _ _ => false) 1 (NewMessage 6 [])
      (.rpcCmd 4 false)
      rfl rfl (by decide) (by decide) (by decide)
    rw [h.1]
    rfl

end Kiss
